import Mathlib

/-!
Shallow embedding of the authentication core of the TechwiseFinalProject
repository: the JWT-based server middleware (`middleware/auth.js`), the
auth routes (`server/routes/auth.js`), and the client-side session state
machine with its axios interceptor pair (`context/AuthContext.jsx`).

Modelling conventions:
- JWT strings are interpreted through an environment `JwtEnv.decode`
  mapping every string to its decoded view (the `jsonwebtoken` library is
  an external collaborator; its documented contract is: verification
  fails with `JsonWebTokenError` on a structurally or cryptographically
  invalid token, with `TokenExpiredError` on a well-formed token signed
  with the right secret whose expiry has passed).
- Tokens issued by the server are modelled at the decoded level
  (`TokenStr.signed userId secret exp`), which is the information content
  `jwt.sign({userId}, secret, {expiresIn})` embeds.
- JavaScript string falsiness (absent field or empty string) is modelled
  on `Option String` by `isFalsy`.
- `split(" ")` and `toLowerCase()` are re-implemented structurally on the
  character list so that all definitions evaluate by kernel reduction.
- Each Express handler is a pure function from its inputs (request parts,
  store contents, injected collaborator outcomes for awaited calls) to a
  result value; sending a response and calling `next()` are the
  constructors of the result type, so "responds exactly once" and
  "forwards exactly once" are captured by the result being a single value.
-/

namespace TosAuth

/-- JS `s.split(" ")` on the character list: split at every single space,
keeping empty segments, with `[""]` for the empty string. -/
def splitSpAux : List Char → List (List Char)
  | [] => [[]]
  | c :: cs =>
    let r := splitSpAux cs
    if c = ' ' then [] :: r
    else
      match r with
      | [] => [[c]]
      | h :: t => (c :: h) :: t

/-- JS `authHeader.split(" ")` as a string-level function. -/
def jsSplitSpace (s : String) : List String :=
  (splitSpAux s.data).map String.mk

/-- JS `email.toLowerCase()`. -/
def jsToLower (s : String) : String :=
  String.mk (s.data.map Char.toLower)

/-- JS falsiness of an optional string field: absent (`undefined`) or
the empty string. -/
def isFalsy : Option String → Bool
  | none => true
  | some s => s = ""

/-- Decoded view of a JWT string: either not a structurally valid signed
token at all, or a token embedding a subject id, the secret it was signed
with, and an absolute expiry instant (seconds). -/
inductive TokenStr where
  | malformed (raw : String)
  | signed (userId : Nat) (secret : String) (exp : Int)
deriving DecidableEq, Repr

/-- Environment interpreting JWT strings; stands for the `jsonwebtoken`
library, an external collaborator of the repository. -/
structure JwtEnv where
  decode : String → TokenStr

/-- The two verification failures `jsonwebtoken` distinguishes, inspected
by name in `middleware/auth.js` lines 41-53. -/
inductive JwtError where
  | jsonWebTokenError
  | tokenExpiredError
deriving DecidableEq, Repr

/-- `jwt.verify(token, secret)` at instant `now`: a malformed string or a
wrong-secret signature raises `JsonWebTokenError`; a well-formed token
under the right secret whose expiry has passed raises
`TokenExpiredError`; otherwise the payload (the embedded `userId`) is
returned. -/
def jwtVerify (env : JwtEnv) (token : String) (secret : String) (now : Int) :
    Except JwtError Nat :=
  match env.decode token with
  | .malformed _ => .error .jsonWebTokenError
  | .signed userId sec exp =>
    if sec ≠ secret then .error .jsonWebTokenError
    else if exp ≤ now then .error .tokenExpiredError
    else .ok userId

/-- Server configuration: the two signing secrets and the access-token
lifetime (`process.env` values with their code defaults). The refresh
lifetime is the 30-day literal in the source. -/
structure Config where
  jwtSecret : String
  jwtRefreshSecret : String
  jwtExpiresIn : Int
deriving DecidableEq, Repr

/-- The defaults hard-coded in `middleware/auth.js`:
the two secret strings and the 7-day lifetime (in seconds). -/
def defaultConfig : Config :=
  { jwtSecret := "your-secret-key"
    jwtRefreshSecret := "your-refresh-secret-key"
    jwtExpiresIn := 604800 }

/-- Seconds in the 30-day refresh lifetime of `generateRefreshToken`. -/
def refreshLifetime : Int := 2592000

/-- `generateToken(userId)` (`middleware/auth.js` lines 83-89), at the
decoded level: a token embedding `userId`, signed with the access secret,
expiring `jwtExpiresIn` after `now`. -/
def generateToken (cfg : Config) (userId : Nat) (now : Int) : TokenStr :=
  .signed userId cfg.jwtSecret (now + cfg.jwtExpiresIn)

/-- `generateRefreshToken(userId)` (`middleware/auth.js` lines 92-98). -/
def generateRefreshToken (cfg : Config) (userId : Nat) (now : Int) : TokenStr :=
  .signed userId cfg.jwtRefreshSecret (now + refreshLifetime)

/-- A stored identity (the fields of the Mongoose `User` model that the
auth core reads): id, lowercase email, bcrypt password hash, display
name, last-login stamp. -/
structure User where
  id : Nat
  email : String
  password : String
  name : String
  lastLoginAt : Option Int
deriving DecidableEq, Repr

/-- An identity with the password hash stripped, as produced by
the select call dropping the password and by the sanitized response bodies. -/
structure SanitizedUser where
  id : Nat
  email : String
  name : String
deriving DecidableEq, Repr

/-- Strip the password hash from an identity. -/
def sanitize (u : User) : SanitizedUser :=
  { id := u.id, email := u.email, name := u.name }

/-- Outcome of an awaited `User.findById` call: a user, a miss, or a
store fault (the awaited promise rejecting). -/
inductive StoreResult where
  | found (u : User)
  | notFound
  | fault
deriving DecidableEq, Repr

/-- Result of one run of an Express middleware on one request: either a
response was sent (status, message, error code: the `{message, error}`
body shape of the repository), or `next()` was invoked, with the value
the middleware attached to `req.user` (`none` when it left it unset or
set it to `null`). One run produces exactly one result value, which is
how the source guarantees at most one response / one `next()` call. -/
inductive MwResult where
  | respond (status : Nat) (message : String) (errorCode : String)
  | next (user : Option SanitizedUser)
deriving DecidableEq, Repr

/-- The token candidate expression of
`middleware/auth.js` line 14, as the token candidate: `none` when the
header is absent, the header itself when the header is falsy (the empty
string, itself falsy), else the second space-separated segment when it
exists. -/
def extractToken : Option String → Option String
  | none => none
  | some h => if h = "" then some h else (jsSplitSpace h)[1]?

/-- `authenticateToken` (`middleware/auth.js` lines 11-61): falsy token
candidate gives 401 `NO_TOKEN`; `jwt.verify` failure gives 403
`INVALID_TOKEN` or 403 `TOKEN_EXPIRED` by error name; a missing user
gives 401 `INVALID_USER`; a store fault falls into the catch-all 500
`AUTH_SERVER_ERROR`; otherwise the sanitized user is attached and
`next()` runs. -/
def authenticateToken (cfg : Config) (env : JwtEnv) (findById : Nat → StoreResult)
    (now : Int) (authHeader : Option String) : MwResult :=
  match extractToken authHeader with
  | none => .respond 401 "Access token is required" "NO_TOKEN"
  | some t =>
    if t = "" then .respond 401 "Access token is required" "NO_TOKEN"
    else
      match jwtVerify env t cfg.jwtSecret now with
      | .error .jsonWebTokenError => .respond 403 "Invalid token" "INVALID_TOKEN"
      | .error .tokenExpiredError => .respond 403 "Token expired" "TOKEN_EXPIRED"
      | .ok userId =>
        match findById userId with
        | .fault => .respond 500 "Server error during authentication" "AUTH_SERVER_ERROR"
        | .notFound => .respond 401 "User not found" "INVALID_USER"
        | .found u => .next (some (sanitize u))

/-- `optionalAuth` (`middleware/auth.js` lines 64-80): attempts the same
decode-and-lookup; any failure is swallowed by the catch (or leaves
`req.user` as `null`/unset) and `next()` always runs. -/
def optionalAuth (cfg : Config) (env : JwtEnv) (findById : Nat → StoreResult)
    (now : Int) (authHeader : Option String) : MwResult :=
  match extractToken authHeader with
  | none => .next none
  | some t =>
    if t = "" then .next none
    else
      match jwtVerify env t cfg.jwtSecret now with
      | .error _ => .next none
      | .ok userId =>
        match findById userId with
        | .fault => .next none
        | .notFound => .next none
        | .found u => .next (some (sanitize u))

/-- `User.findByEmail(email)`: `findOne({ email: email.toLowerCase() })`.
The schema stores emails lowercased, so the store is searched with the
lowercased query. -/
def findByEmail (users : List User) (email : String) : Option User :=
  users.find? (fun u => u.email == jsToLower email)

/-- Outcome of an awaited `user.save()`: success, a duplicate-key fault
(Mongo error code 11000), or any other rejection. -/
inductive SaveOutcome where
  | ok
  | dupKey
  | err
deriving DecidableEq, Repr

/-- Result of the register or login handler: an error body
`{message, error}` with its status, or a success body carrying the
sanitized user, the optional `lastLoginAt` echo (present only in the
login response), and the freshly issued token pair. -/
inductive ApiResult where
  | failure (status : Nat) (message : String) (errorCode : String)
  | success (status : Nat) (message : String) (user : SanitizedUser)
      (lastLoginAt : Option Int) (token : TokenStr) (refreshToken : TokenStr)
deriving DecidableEq, Repr

/-- Request body of `POST /api/auth/register`. -/
structure RegisterBody where
  email : Option String
  password : Option String
  confirmPassword : Option String
  name : Option String
deriving DecidableEq, Repr

/-- `POST /api/auth/register` (`routes/auth.js` lines 17-96) as a pure
function of the request body, the store contents, the id Mongo will
assign, and the outcomes of the two awaited `save()` calls (`save1`
persists the new user, `save2` persists the last-login stamp). `hash` is
the bcrypt hash applied by the pre-save hook. Returns the response and
the store contents afterwards. -/
def register (cfg : Config) (hash : String → String) (users : List User)
    (newId : Nat) (now : Int) (body : RegisterBody) (save1 save2 : SaveOutcome) :
    ApiResult × List User :=
  if isFalsy body.email || isFalsy body.password then
    (.failure 400 "Email and password are required" "MISSING_FIELDS", users)
  else if body.password ≠ body.confirmPassword then
    (.failure 400 "Passwords do not match" "PASSWORD_MISMATCH", users)
  else if (body.password.getD "").length < 6 then
    (.failure 400 "Password must be at least 6 characters long" "PASSWORD_TOO_SHORT", users)
  else
    match findByEmail users (body.email.getD "") with
    | some _ => (.failure 400 "User with this email already exists" "USER_EXISTS", users)
    | none =>
      match save1 with
      | .dupKey => (.failure 400 "Email already exists" "DUPLICATE_EMAIL", users)
      | .err => (.failure 500 "Server error during registration" "REGISTRATION_ERROR", users)
      | .ok =>
        let u0 : User :=
          { id := newId
            email := jsToLower (body.email.getD "")
            password := hash (body.password.getD "")
            name := body.name.getD ""
            lastLoginAt := none }
        match save2 with
        | .dupKey => (.failure 400 "Email already exists" "DUPLICATE_EMAIL", users ++ [u0])
        | .err => (.failure 500 "Server error during registration" "REGISTRATION_ERROR", users ++ [u0])
        | .ok =>
          (.success 201 "User registered successfully" (sanitize u0) none
            (generateToken cfg newId now) (generateRefreshToken cfg newId now),
           users ++ [{ u0 with lastLoginAt := some now }])

/-- Request body of `POST /api/auth/login`. -/
structure LoginBody where
  email : Option String
  password : Option String
deriving DecidableEq, Repr

/-- `POST /api/auth/login` (`routes/auth.js` lines 101-159) as a pure
function; `pwCompare candidate hash` is the bcrypt comparison
(`user.comparePassword`), and `saveOutcome` the awaited last-login
`save()`. Lookup miss and hash mismatch produce the same
401 `INVALID_CREDENTIALS` body; any save rejection falls into the
catch-all 500 `LOGIN_ERROR`. -/
def login (cfg : Config) (pwCompare : String → String → Bool) (users : List User)
    (now : Int) (body : LoginBody) (saveOutcome : SaveOutcome) :
    ApiResult × List User :=
  if isFalsy body.email || isFalsy body.password then
    (.failure 400 "Email and password are required" "MISSING_FIELDS", users)
  else
    match findByEmail users (body.email.getD "") with
    | none => (.failure 401 "Invalid email or password" "INVALID_CREDENTIALS", users)
    | some u =>
      if pwCompare (body.password.getD "") u.password = false then
        (.failure 401 "Invalid email or password" "INVALID_CREDENTIALS", users)
      else
        match saveOutcome with
        | .ok =>
          (.success 200 "Login successful" (sanitize u) (some now)
            (generateToken cfg u.id now) (generateRefreshToken cfg u.id now),
           users.map (fun v => if v.id = u.id then { u with lastLoginAt := some now } else v))
        | _ => (.failure 500 "Server error during login" "LOGIN_ERROR", users)

/-- Result of the refresh handler: an error body, or the 200 body
`{token}` — the success body carries only the new access token and no
refresh token field. -/
inductive RefreshResult where
  | failure (status : Nat) (message : String) (errorCode : String)
  | success (token : TokenStr)
deriving DecidableEq, Repr

/-- `POST /api/auth/refresh` (`routes/auth.js` lines 208-236) as a pure
function. A falsy `refreshToken` body field gives 401
`NO_REFRESH_TOKEN`; any `jwt.verify` failure against the refresh secret
lands in the catch-all 403 `INVALID_REFRESH_TOKEN`; otherwise a new
access token for the decoded `userId` is returned. The handler has the
store in scope but never reads it: `users` is deliberately unused, as in
the source. -/
def refreshRoute (cfg : Config) (env : JwtEnv) (users : List User) (now : Int)
    (refreshToken : Option String) : RefreshResult :=
  if isFalsy refreshToken then
    .failure 401 "Refresh token is required" "NO_REFRESH_TOKEN"
  else
    match jwtVerify env (refreshToken.getD "") cfg.jwtRefreshSecret now with
    | .error _ => .failure 403 "Invalid refresh token" "INVALID_REFRESH_TOKEN"
    | .ok userId => .success (generateToken cfg userId now)

/-- Client-side user object as the reducer sees it: a bag of optional
fields (a JS object whose keys may be absent). -/
structure UserObj where
  id : Option String
  email : Option String
  name : Option String
deriving DecidableEq, Repr

/-- JS `{ ...state.user, ...payload }` in the `UPDATE_USER` branch:
spreading `null` contributes nothing; fields present in the payload
override fields of the old object. -/
def mergeUser (old : Option UserObj) (p : UserObj) : UserObj :=
  match old with
  | none => p
  | some o =>
    { id := match p.id with | some v => some v | none => o.id
      email := match p.email with | some v => some v | none => o.email
      name := match p.name with | some v => some v | none => o.name }

/-- The client `SessionState` held by the `AuthContext` reducer
(`AuthContext.jsx` lines 101-108). -/
structure SessionState where
  user : Option UserObj
  token : Option String
  refreshToken : Option String
  isAuthenticated : Bool
  isLoading : Bool
  error : Option String
deriving DecidableEq, Repr

/-- Payload of an `AUTH_SUCCESS` action; each field may be `null` or
absent, which the reducer copies into the state verbatim. -/
structure SuccessPayload where
  user : Option UserObj
  token : Option String
  refreshToken : Option String
deriving DecidableEq, Repr

/-- The closed set of actions dispatched to `authReducer`
(`AuthContext.jsx` lines 111-174). -/
inductive Action where
  | authStart
  | authSuccess (payload : SuccessPayload)
  | authFailure (message : String)
  | logout
  | setLoading (b : Bool)
  | clearError
  | updateUser (patch : UserObj)
deriving DecidableEq, Repr

/-- `authReducer` (`AuthContext.jsx` lines 111-174), transition for
transition. The JS `default` branch returning the state unchanged is
unreachable here because `Action` is closed. -/
def authReducer (state : SessionState) (action : Action) : SessionState :=
  match action with
  | .authStart =>
    { state with isLoading := true, error := none }
  | .authSuccess p =>
    { state with
      user := p.user, token := p.token, refreshToken := p.refreshToken
      isAuthenticated := true, isLoading := false, error := none }
  | .authFailure msg =>
    { state with
      user := none, token := none, refreshToken := none
      isAuthenticated := false, isLoading := false, error := some msg }
  | .logout =>
    { state with
      user := none, token := none, refreshToken := none
      isAuthenticated := false, isLoading := false, error := none }
  | .setLoading b =>
    { state with isLoading := b }
  | .clearError =>
    { state with error := none }
  | .updateUser patch =>
    { state with user := some (mergeUser state.user patch) }

/-- The initial client state (`AuthContext.jsx` lines 101-108): user
absent, tokens read from durable storage (either may be absent),
unauthenticated, loading. -/
def initialState (storedToken storedRefresh : Option String) : SessionState :=
  { user := none
    token := storedToken
    refreshToken := storedRefresh
    isAuthenticated := false
    isLoading := true
    error := none }

/-- States reachable from an initial client state by dispatching any
sequence of the named actions. -/
inductive Reachable : SessionState → Prop
  | init (t r : Option String) : Reachable (initialState t r)
  | step {s : SessionState} (a : Action) : Reachable s → Reachable (authReducer s a)

/-- An action is payload-complete when, if it is an `AUTH_SUCCESS`, its
payload carries a user, a token and a refresh token. -/
def wfAction : Action → Prop
  | .authSuccess p => p.user ≠ none ∧ p.token ≠ none ∧ p.refreshToken ≠ none
  | _ => True

/-- States reachable using only payload-complete actions. -/
inductive ReachableWF : SessionState → Prop
  | init (t r : Option String) : ReachableWF (initialState t r)
  | step {s : SessionState} (a : Action) :
      ReachableWF s → wfAction a → ReachableWF (authReducer s a)

/-- An axios request as the response interceptor sees it: the mutable
`_retry` marker (absent, hence false, on a fresh request) and its
`Authorization` header. -/
structure AxiosRequest where
  retryFlag : Bool
  authHeader : Option String
deriving DecidableEq, Repr

/-- Outcome of the awaited `POST /auth/refresh` call made by the
interceptor: a 200 with a new token string, or any rejection. -/
inductive RefreshOutcome where
  | ok (newToken : String)
  | err
deriving DecidableEq, Repr

/-- What the interceptor returns for the failed response: re-issue of
the (mutated) original request via `axios(originalRequest)`, or a
rejection — propagating the refresh error (`true`) or the original
error (`false`). -/
inductive InterceptResult where
  | reissue (req : AxiosRequest)
  | reject (refreshErrorPropagated : Bool)
deriving DecidableEq, Repr

/-- Observable effects of one interceptor run: how many refresh calls it
issued, which actions it dispatched (durable-storage writes are ignored),
and its result. -/
structure InterceptEffects where
  refreshCalls : Nat
  dispatched : List Action
  result : InterceptResult
deriving DecidableEq, Repr

/-- The response interceptor error branch (`AuthContext.jsx` lines
201-235) as a pure function of the session state, the failed response
status (absent on a network error), the original request, and the
outcome of the refresh call it would await. On a 403 for a request not
yet marked `_retry`: mark it, call refresh once; on refresh success
dispatch `AUTH_SUCCESS` with `{...state, token: newToken}` and re-issue
the request with the new bearer header; on refresh failure dispatch the
logout transition and propagate the refresh rejection. Anything else is
rejected unchanged with no refresh call. -/
def responseInterceptor (state : SessionState) (status : Option Nat)
    (req : AxiosRequest) (refresh : RefreshOutcome) : InterceptEffects :=
  if status = some 403 ∧ req.retryFlag = false then
    match refresh with
    | .ok t =>
      { refreshCalls := 1
        dispatched := [Action.authSuccess
          { user := state.user, token := some t, refreshToken := state.refreshToken }]
        result := .reissue { retryFlag := true, authHeader := some ("Bearer " ++ t) } }
    | .err =>
      { refreshCalls := 1
        dispatched := [Action.logout]
        result := .reject true }
  else
    { refreshCalls := 0, dispatched := [], result := .reject false }

/-- A structurally or cryptographically invalid decoded token with
respect to a secret: not a well-formed signed token, or signed with a
different secret. `jsonwebtoken` reports both as `JsonWebTokenError`. -/
def badSignature (d : TokenStr) (secret : String) : Prop :=
  (∃ raw, d = .malformed raw) ∨ (∃ uid sec exp, d = .signed uid sec exp ∧ sec ≠ secret)

/-- The token-candidate conditions under which the source responds
`NO_TOKEN`: no header, a falsy header, or a header whose second
space-separated segment is absent or empty. -/
def noTokenCond (h : Option String) : Prop :=
  h = none ∨ h = some "" ∨
    ∃ s, h = some s ∧
      ((jsSplitSpace s)[1]? = none ∨ (jsSplitSpace s)[1]? = some "")

/-- A small concrete JWT environment used by the witnesses: one valid
access token, one expired access token, one valid refresh token, one
token under a foreign secret; everything else malformed. -/
def envW : JwtEnv :=
  ⟨fun s =>
    if s = "acc1" then .signed 1 "your-secret-key" 1000
    else if s = "exp1" then .signed 1 "your-secret-key" (-5)
    else if s = "ref7" then .signed 7 "your-refresh-secret-key" 1000
    else if s = "bad1" then .signed 1 "other-secret" 1000
    else .malformed s⟩

/-- A concrete stored identity used by the witnesses. -/
def userW : User :=
  { id := 1, email := "a@b.com", password := "bcrypt-hash", name := "Ada"
    lastLoginAt := none }

/-- A concrete store lookup used by the witnesses: id 1 resolves to
`userW`, everything else misses. -/
def findByIdW : Nat → StoreResult :=
  fun i => if i = 1 then .found userW else .notFound

/-- The client state produced by letting the response interceptor handle
a 403 from the initial state (stored tokens present, no user loaded yet)
with a succeeding refresh call, and dispatching what it emits. -/
def violatingState : SessionState :=
  ((responseInterceptor (initialState (some "t0") (some "r0")) (some 403)
      { retryFlag := false, authHeader := some "Bearer t0" }
      (.ok "newTok")).dispatched).foldl
    authReducer (initialState (some "t0") (some "r0"))

/-- Characterization of `optionalAuth`: it always calls `next()`, and the
attached identity is computed by the decode-and-lookup pipeline with
every failure mapped to no attachment. -/
theorem optionalAuth_eq (cfg : Config) (env : JwtEnv) (findById : Nat → StoreResult)
    (now : Int) (h : Option String) :
    optionalAuth cfg env findById now h =
      .next (match extractToken h with
        | none => none
        | some t =>
          if t = "" then none
          else
            match jwtVerify env t cfg.jwtSecret now with
            | .error _ => none
            | .ok userId =>
              match findById userId with
              | .found u => some (sanitize u)
              | _ => none) := by
  unfold optionalAuth
  split
  · rfl
  · split
    · rfl
    · split
      · rfl
      · split <;> simp [*]

/-- Claim C3, amended: the mandatory middleware responds 401 `NO_TOKEN`
and does not forward exactly when the header is absent, falsy, or has no
non-empty second space-separated segment; the scheme word itself is
never validated. -/
theorem authenticateToken_noToken (cfg : Config) (env : JwtEnv)
    (findById : Nat → StoreResult) (now : Int) (h : Option String)
    (hc : noTokenCond h) :
    authenticateToken cfg env findById now h =
        .respond 401 "Access token is required" "NO_TOKEN" ∧
      ∀ u, authenticateToken cfg env findById now h ≠ .next u := by
  have key : authenticateToken cfg env findById now h =
      .respond 401 "Access token is required" "NO_TOKEN" := by
    rcases hc with hn | he | ⟨s, rfl, hs⟩
    · subst hn; rfl
    · subst he; rfl
    · by_cases hse : s = ""
      · subst hse; rfl
      · rcases hs with h1 | h1 <;>
          simp [authenticateToken, extractToken, hse, h1]
  exact ⟨key, fun u hu => by rw [key] at hu; exact MwResult.noConfusion hu⟩

/-- Witness for claim C3 amended theorem: a header with a scheme word
but no token segment yields `NO_TOKEN`. -/
theorem authenticateToken_noToken_witness :
    authenticateToken defaultConfig envW findByIdW 0 (some "Bearer") =
        .respond 401 "Access token is required" "NO_TOKEN" ∧
      ∀ u, authenticateToken defaultConfig envW findByIdW 0 (some "Bearer") ≠ .next u :=
  authenticateToken_noToken defaultConfig envW findByIdW 0 (some "Bearer")
    (Or.inr (Or.inr ⟨"Bearer", rfl, Or.inl (by decide)⟩))

/-- Counterexample to claim C3 as stated: a present header with a
non-Bearer scheme but a second segment is not answered with `NO_TOKEN`;
with a segment that is a valid token the request is even forwarded. -/
theorem bearer_scheme_not_checked :
    authenticateToken defaultConfig envW findByIdW 0 (some "Basic acc1") =
        .next (some (sanitize userW)) ∧
      authenticateToken defaultConfig envW findByIdW 0 (some "Basic xyz") =
        .respond 403 "Invalid token" "INVALID_TOKEN" ∧
      authenticateToken defaultConfig envW findByIdW 0 (some "Basic xyz") ≠
        .respond 401 "Access token is required" "NO_TOKEN" := by
  refine ⟨by decide, by decide, by decide⟩

/-- Claim C4: for a presented bearer token, a structurally or
cryptographically invalid token yields 403 `INVALID_TOKEN`, a well-formed
but expired token yields 403 `TOKEN_EXPIRED`, the two responses are
distinct, and in neither case is the request forwarded. -/
theorem authenticateToken_invalid_expired (cfg : Config) (env : JwtEnv)
    (findById : Nat → StoreResult) (now : Int) (h : Option String) (t : String)
    (hx : extractToken h = some t) (hne : t ≠ "") :
    (badSignature (env.decode t) cfg.jwtSecret →
        authenticateToken cfg env findById now h =
          .respond 403 "Invalid token" "INVALID_TOKEN") ∧
      (∀ uid exp, env.decode t = .signed uid cfg.jwtSecret exp → exp ≤ now →
        authenticateToken cfg env findById now h =
          .respond 403 "Token expired" "TOKEN_EXPIRED") ∧
      (MwResult.respond 403 "Invalid token" "INVALID_TOKEN" ≠
        .respond 403 "Token expired" "TOKEN_EXPIRED") ∧
      ((badSignature (env.decode t) cfg.jwtSecret ∨
          ∃ uid exp, env.decode t = .signed uid cfg.jwtSecret exp ∧ exp ≤ now) →
        ∀ u, authenticateToken cfg env findById now h ≠ .next u) := by
  have base : authenticateToken cfg env findById now h =
      (match jwtVerify env t cfg.jwtSecret now with
        | .error .jsonWebTokenError => .respond 403 "Invalid token" "INVALID_TOKEN"
        | .error .tokenExpiredError => .respond 403 "Token expired" "TOKEN_EXPIRED"
        | .ok userId =>
          match findById userId with
          | .fault => .respond 500 "Server error during authentication" "AUTH_SERVER_ERROR"
          | .notFound => .respond 401 "User not found" "INVALID_USER"
          | .found u => .next (some (sanitize u))) := by
    unfold authenticateToken
    rw [hx]
    simp [hne]
  have hbad : badSignature (env.decode t) cfg.jwtSecret →
      authenticateToken cfg env findById now h =
        .respond 403 "Invalid token" "INVALID_TOKEN" := by
    intro hb
    rcases hb with ⟨raw, hr⟩ | ⟨uid, sec, exp, hd, hsec⟩
    · rw [base]; simp [jwtVerify, hr]
    · rw [base]; simp [jwtVerify, hd, hsec]
  have hexp : ∀ uid exp, env.decode t = .signed uid cfg.jwtSecret exp → exp ≤ now →
      authenticateToken cfg env findById now h =
        .respond 403 "Token expired" "TOKEN_EXPIRED" := by
    intro uid exp hd hle
    rw [base]; simp [jwtVerify, hd, hle]
  refine ⟨hbad, hexp, by simp, ?_⟩
  rintro (hb | ⟨uid, exp, hd, hle⟩) u hu
  · rw [hbad hb] at hu; exact MwResult.noConfusion hu
  · rw [hexp uid exp hd hle] at hu; exact MwResult.noConfusion hu

/-- Witness for claim C4 theorem: a token under a foreign secret gives
`INVALID_TOKEN` and an expired token gives `TOKEN_EXPIRED`. -/
theorem authenticateToken_invalid_expired_witness :
    authenticateToken defaultConfig envW findByIdW 0 (some "Bearer bad1") =
        .respond 403 "Invalid token" "INVALID_TOKEN" ∧
      authenticateToken defaultConfig envW findByIdW 0 (some "Bearer exp1") =
        .respond 403 "Token expired" "TOKEN_EXPIRED" := by
  have h1 := authenticateToken_invalid_expired defaultConfig envW findByIdW 0
    (some "Bearer bad1") "bad1" (by decide) (by decide)
  have h2 := authenticateToken_invalid_expired defaultConfig envW findByIdW 0
    (some "Bearer exp1") "exp1" (by decide) (by decide)
  exact ⟨h1.1 (Or.inr ⟨1, "other-secret", 1000, by decide, by decide⟩),
    h2.2.1 1 (-5) (by decide) (by decide)⟩

/-- Claim C8: a valid unexpired access token whose subject resolves in
the store makes the mandatory middleware attach the sanitized identity
(password hash stripped by construction of `SanitizedUser`) and call the
next handler exactly once. -/
theorem authenticateToken_success (cfg : Config) (env : JwtEnv)
    (findById : Nat → StoreResult) (now : Int) (h : Option String) (t : String)
    (uid : Nat) (exp : Int) (u : User)
    (hx : extractToken h = some t) (hne : t ≠ "")
    (hdec : env.decode t = .signed uid cfg.jwtSecret exp) (hexp : now < exp)
    (hfind : findById uid = .found u) :
    authenticateToken cfg env findById now h = .next (some (sanitize u)) := by
  unfold authenticateToken
  rw [hx]
  simp [hne, jwtVerify, hdec, hfind, not_le.mpr hexp]

/-- Witness for claim C8 theorem: the valid token `acc1` of `envW`
forwards with the sanitized `userW` attached. -/
theorem authenticateToken_success_witness :
    authenticateToken defaultConfig envW findByIdW 0 (some "Bearer acc1") =
      .next (some (sanitize userW)) :=
  authenticateToken_success defaultConfig envW findByIdW 0 (some "Bearer acc1")
    "acc1" 1 1000 userW (by decide) (by decide) (by decide) (by decide) (by decide)

/-- Claim C9: the optional middleware never sends an error response,
always forwards, and attaches an identity only when the whole
decode-and-lookup pipeline succeeded, so every auth-related failure
forwards with no attached identity. -/
theorem optionalAuth_never_errors (cfg : Config) (env : JwtEnv)
    (findById : Nat → StoreResult) (now : Int) (h : Option String) :
    (∃ o, optionalAuth cfg env findById now h = .next o) ∧
      (∀ status msg code, optionalAuth cfg env findById now h ≠ .respond status msg code) ∧
      (∀ su, optionalAuth cfg env findById now h = .next (some su) →
        ∃ t uid u, extractToken h = some t ∧ t ≠ "" ∧
          jwtVerify env t cfg.jwtSecret now = .ok uid ∧
          findById uid = .found u ∧ su = sanitize u) := by
  rw [optionalAuth_eq]
  refine ⟨⟨_, rfl⟩, fun status msg code hq => MwResult.noConfusion hq, ?_⟩
  intro su hsu
  have hsu2 := MwResult.next.inj hsu
  split at hsu2
  · exact Option.noConfusion hsu2
  · rename_i t hE
    split at hsu2
    · exact Option.noConfusion hsu2
    · rename_i ht
      split at hsu2
      · exact Option.noConfusion hsu2
      · rename_i uid hJ
        split at hsu2
        · rename_i u hF
          exact ⟨t, uid, u, hE, ht, hJ, hF, (Option.some.inj hsu2).symm⟩
        · exact Option.noConfusion hsu2

/-- Witness for claim C9 theorem: on a store fault under a valid token,
the optional middleware still forwards with no attached identity. -/
theorem optionalAuth_never_errors_witness :
    (∃ o, optionalAuth defaultConfig envW (fun _ => .fault) 0 (some "Bearer acc1") = .next o) ∧
      optionalAuth defaultConfig envW (fun _ => .fault) 0 (some "Bearer acc1") = .next none := by
  have h := optionalAuth_never_errors defaultConfig envW (fun _ => .fault) 0
    (some "Bearer acc1")
  exact ⟨h.1, by decide⟩

/-- Claim C1: on a 403 for a request not yet marked retried, the
interceptor issues exactly one refresh call; on refresh success it
re-issues the original request exactly once, marked retried, with the
new access token in the Authorization header, storing the token through
an `AUTH_SUCCESS` dispatch; on refresh failure it dispatches the
`LOGOUT` transition and propagates the refresh rejection. A request
already marked retried gets no refresh call and no re-issue: its failure
is propagated. -/
theorem responseInterceptor_retry_once (state : SessionState) (status : Option Nat)
    (req : AxiosRequest) (r : RefreshOutcome) :
    (status = some 403 → req.retryFlag = false →
        (responseInterceptor state status req r).refreshCalls = 1 ∧
          (∀ t, r = .ok t →
            (responseInterceptor state status req r).result =
                .reissue { retryFlag := true, authHeader := some ("Bearer " ++ t) } ∧
              (responseInterceptor state status req r).dispatched =
                [Action.authSuccess
                  { user := state.user, token := some t, refreshToken := state.refreshToken }]) ∧
          (r = .err →
            (responseInterceptor state status req r).result = .reject true ∧
              (responseInterceptor state status req r).dispatched = [Action.logout])) ∧
      (req.retryFlag = true →
        responseInterceptor state status req r =
          { refreshCalls := 0, dispatched := [], result := .reject false }) := by
  constructor
  · intro hs hr
    cases r with
    | ok t =>
      refine ⟨?_, ?_, ?_⟩
      · simp [responseInterceptor, hs, hr]
      · intro t2 ht2
        have ht3 : t2 = t := by
          cases ht2; rfl
        subst ht3
        constructor <;> simp [responseInterceptor, hs, hr]
      · intro habs
        exact RefreshOutcome.noConfusion habs
    | err =>
      refine ⟨?_, ?_, ?_⟩
      · simp [responseInterceptor, hs, hr]
      · intro t2 habs
        exact RefreshOutcome.noConfusion habs
      · intro _
        constructor <;> simp [responseInterceptor, hs, hr]
  · intro hr
    simp [responseInterceptor, hr]

/-- Witness for claim C1 theorem: from the initial state, one fresh 403
triggers one refresh and one re-issue with the renewed header; the same
403 on the already-retried request triggers nothing. -/
theorem responseInterceptor_retry_once_witness :
    (responseInterceptor (initialState none none) (some 403)
        { retryFlag := false, authHeader := none } (.ok "t1")).refreshCalls = 1 ∧
      (responseInterceptor (initialState none none) (some 403)
          { retryFlag := false, authHeader := none } (.ok "t1")).result =
        .reissue { retryFlag := true, authHeader := some ("Bearer " ++ "t1") } ∧
      responseInterceptor (initialState none none) (some 403)
          { retryFlag := true, authHeader := none } .err =
        { refreshCalls := 0, dispatched := [], result := .reject false } := by
  have h1 := responseInterceptor_retry_once (initialState none none) (some 403)
    { retryFlag := false, authHeader := none } (.ok "t1")
  have h2 := responseInterceptor_retry_once (initialState none none) (some 403)
    { retryFlag := true, authHeader := none } .err
  exact ⟨(h1.1 rfl rfl).1, ((h1.1 rfl rfl).2.1 "t1" rfl).1, h2.2 rfl⟩

/-- Counterexample to claim C2 as stated: the state obtained from the
initial state by dispatching exactly what the response interceptor emits
on a 403 with a succeeding refresh (an `AUTH_SUCCESS` whose payload
spreads the current state, where the user is still null) is reachable
through the named transitions, is authenticated, and has a null user. -/
theorem sessionInvariant_counterexample :
    Reachable violatingState ∧ violatingState.isAuthenticated = true ∧
      violatingState.user = none := by
  refine ⟨?_, by decide, by decide⟩
  have h1 : violatingState =
      authReducer (initialState (some "t0") (some "r0"))
        (Action.authSuccess
          { user := none, token := some "newTok", refreshToken := some "r0" }) := by
    decide
  rw [h1]
  exact Reachable.step _ (Reachable.init _ _)

/-- Claim C2, amended: along transition sequences in which every
`AUTH_SUCCESS` payload carries a non-null user, token and refresh token,
every reachable authenticated state has all three non-null. -/
theorem sessionInvariant_wf (s : SessionState) (hs : ReachableWF s)
    (hA : s.isAuthenticated = true) :
    s.user ≠ none ∧ s.token ≠ none ∧ s.refreshToken ≠ none := by
  induction hs with
  | init t r => simp [initialState] at hA
  | step a hrec hwf ih =>
    cases a with
    | authStart =>
      simp only [authReducer] at hA ⊢
      exact ih hA
    | authSuccess p =>
      simp only [wfAction] at hwf
      simpa [authReducer] using hwf
    | authFailure msg =>
      simp [authReducer] at hA
    | logout =>
      simp [authReducer] at hA
    | setLoading b =>
      simp only [authReducer] at hA ⊢
      exact ih hA
    | clearError =>
      simp only [authReducer] at hA ⊢
      exact ih hA
    | updateUser patch =>
      simp only [authReducer] at hA ⊢
      exact ⟨by simp, (ih hA).2.1, (ih hA).2.2⟩

/-- Witness for claim C2 amended theorem: a login success from the
initial state yields an authenticated state with user, token and refresh
token present. -/
theorem sessionInvariant_wf_witness :
    (authReducer (initialState none none)
        (Action.authSuccess
          { user := some { id := some "1", email := some "a@b.com", name := some "Ada" }
            token := some "t1", refreshToken := some "r1" })).user ≠ none ∧
      (authReducer (initialState none none)
        (Action.authSuccess
          { user := some { id := some "1", email := some "a@b.com", name := some "Ada" }
            token := some "t1", refreshToken := some "r1" })).token ≠ none ∧
      (authReducer (initialState none none)
        (Action.authSuccess
          { user := some { id := some "1", email := some "a@b.com", name := some "Ada" }
            token := some "t1", refreshToken := some "r1" })).refreshToken ≠ none :=
  sessionInvariant_wf _
    (ReachableWF.step _ (ReachableWF.init none none)
      (by exact ⟨by decide, by decide, by decide⟩))
    (by decide)

/-- Claim C5: a login attempt whose email resolves to no identity and a
login attempt with an existing email but a failing password comparison
produce identical failure responses: status 401, the same message, and
the error code INVALID_CREDENTIALS. -/
theorem login_indistinguishable (cfg : Config) (pwCompare : String → String → Bool)
    (users : List User) (now : Int) (b1 b2 : LoginBody) (s1 s2 : SaveOutcome) (u : User)
    (h1e : isFalsy b1.email = false) (h1p : isFalsy b1.password = false)
    (h2e : isFalsy b2.email = false) (h2p : isFalsy b2.password = false)
    (hfind1 : findByEmail users (b1.email.getD "") = none)
    (hfind2 : findByEmail users (b2.email.getD "") = some u)
    (hcmp : pwCompare (b2.password.getD "") u.password = false) :
    (login cfg pwCompare users now b1 s1).1 = (login cfg pwCompare users now b2 s2).1 ∧
      (login cfg pwCompare users now b1 s1).1 =
        .failure 401 "Invalid email or password" "INVALID_CREDENTIALS" := by
  have e1 : (login cfg pwCompare users now b1 s1).1 =
      .failure 401 "Invalid email or password" "INVALID_CREDENTIALS" := by
    simp [login, h1e, h1p, hfind1]
  have e2 : (login cfg pwCompare users now b2 s2).1 =
      .failure 401 "Invalid email or password" "INVALID_CREDENTIALS" := by
    simp [login, h2e, h2p, hfind2, hcmp]
  exact ⟨e1.trans e2.symm, e1⟩

/-- Witness for claim C5 theorem: an unknown email and a known email
with a rejected password yield the same 401 response. -/
theorem login_indistinguishable_witness :
    (login defaultConfig (fun _ _ => false) [userW] 0
        { email := some "no@x.com", password := some "secret1" } .ok).1 =
      (login defaultConfig (fun _ _ => false) [userW] 0
        { email := some "a@b.com", password := some "wrong12" } .ok).1 ∧
      (login defaultConfig (fun _ _ => false) [userW] 0
        { email := some "no@x.com", password := some "secret1" } .ok).1 =
        .failure 401 "Invalid email or password" "INVALID_CREDENTIALS" :=
  login_indistinguishable defaultConfig (fun _ _ => false) [userW] 0
    { email := some "no@x.com", password := some "secret1" }
    { email := some "a@b.com", password := some "wrong12" } .ok .ok userW
    (by decide) (by decide) (by decide) (by decide) (by decide) (by decide) rfl

/-- Claim C6: the refresh endpoint answers a falsy refresh token with
401 NO_REFRESH_TOKEN, any verification failure against the refresh
secret (invalid or expired, not distinguished) with 403
INVALID_REFRESH_TOKEN, and otherwise a 200 whose brand-new access token
embeds the same subject id as the submitted refresh token; the success
body carries no refresh token field (the `RefreshResult.success`
constructor holds only the access token). -/
theorem refresh_spec (cfg : Config) (env : JwtEnv) (users : List User) (now : Int)
    (rt : Option String) :
    (isFalsy rt = true →
        refreshRoute cfg env users now rt =
          .failure 401 "Refresh token is required" "NO_REFRESH_TOKEN") ∧
      (∀ s e, rt = some s → s ≠ "" →
        jwtVerify env s cfg.jwtRefreshSecret now = .error e →
        refreshRoute cfg env users now rt =
          .failure 403 "Invalid refresh token" "INVALID_REFRESH_TOKEN") ∧
      (∀ s uid, rt = some s → s ≠ "" →
        jwtVerify env s cfg.jwtRefreshSecret now = .ok uid →
        refreshRoute cfg env users now rt =
          .success (TokenStr.signed uid cfg.jwtSecret (now + cfg.jwtExpiresIn))) := by
  refine ⟨?_, ?_, ?_⟩
  · intro hf
    simp [refreshRoute, hf]
  · rintro s e rfl hs hj
    simp [refreshRoute, isFalsy, hs, hj]
  · rintro s uid rfl hs hj
    simp [refreshRoute, isFalsy, hs, hj, generateToken]

/-- Witness for claim C6 theorem: the valid refresh token `ref7` of
`envW` (subject 7) yields a new access token for subject 7. -/
theorem refresh_spec_witness :
    refreshRoute defaultConfig envW [] 0 (some "ref7") =
        .success (TokenStr.signed 7 "your-secret-key" (0 + 604800)) ∧
      refreshRoute defaultConfig envW [] 0 none =
        .failure 401 "Refresh token is required" "NO_REFRESH_TOKEN" ∧
      refreshRoute defaultConfig envW [] 0 (some "garbage") =
        .failure 403 "Invalid refresh token" "INVALID_REFRESH_TOKEN" := by
  have h1 := refresh_spec defaultConfig envW [] 0 (some "ref7")
  have h2 := refresh_spec defaultConfig envW [] 0 none
  have h3 := refresh_spec defaultConfig envW [] 0 (some "garbage")
  exact ⟨h1.2.2 "ref7" 7 rfl (by decide) rfl, h2.1 rfl,
    h3.2.1 "garbage" .jsonWebTokenError rfl (by decide) rfl⟩

/-- Claim C7: the register validations run in order — missing fields,
password mismatch, password too short, existing email, duplicate-key
fault at save — each answered with status 400, the stated code, and an
unchanged store. -/
theorem register_validation_order (cfg : Config) (hash : String → String)
    (users : List User) (newId : Nat) (now : Int) (body : RegisterBody)
    (s1 s2 : SaveOutcome) :
    ((isFalsy body.email || isFalsy body.password) = true →
        register cfg hash users newId now body s1 s2 =
          (.failure 400 "Email and password are required" "MISSING_FIELDS", users)) ∧
      ((isFalsy body.email || isFalsy body.password) = false →
        body.password ≠ body.confirmPassword →
        register cfg hash users newId now body s1 s2 =
          (.failure 400 "Passwords do not match" "PASSWORD_MISMATCH", users)) ∧
      ((isFalsy body.email || isFalsy body.password) = false →
        body.password = body.confirmPassword →
        (body.password.getD "").length < 6 →
        register cfg hash users newId now body s1 s2 =
          (.failure 400 "Password must be at least 6 characters long" "PASSWORD_TOO_SHORT", users)) ∧
      ((isFalsy body.email || isFalsy body.password) = false →
        body.password = body.confirmPassword →
        ¬ (body.password.getD "").length < 6 →
        (∃ u, findByEmail users (body.email.getD "") = some u) →
        register cfg hash users newId now body s1 s2 =
          (.failure 400 "User with this email already exists" "USER_EXISTS", users)) ∧
      ((isFalsy body.email || isFalsy body.password) = false →
        body.password = body.confirmPassword →
        ¬ (body.password.getD "").length < 6 →
        findByEmail users (body.email.getD "") = none →
        s1 = .dupKey →
        register cfg hash users newId now body s1 s2 =
          (.failure 400 "Email already exists" "DUPLICATE_EMAIL", users)) := by
  refine ⟨?_, ?_, ?_, ?_, ?_⟩
  · intro hm
    simp [register, hm]
  · intro hm hne
    simp [register, hm, hne]
  · intro hm heq hlen
    unfold register
    rw [if_neg (by simp [hm]), if_neg (by simp [heq]), if_pos hlen]
  · rintro hm heq hlen ⟨u, hu⟩
    unfold register
    rw [if_neg (by simp [hm]), if_neg (by simp [heq]), if_neg hlen, hu]
  · rintro hm heq hlen hnone rfl
    unfold register
    rw [if_neg (by simp [hm]), if_neg (by simp [heq]), if_neg hlen, hnone]

/-- Witness for claim C7 theorem: a duplicate-key fault at save on an
otherwise valid registration maps to 400 DUPLICATE_EMAIL with the store
unchanged. -/
theorem register_validation_order_witness :
    register defaultConfig (fun s => s ++ "#h") [] 2 0
        { email := some "a@b.com", password := some "secret1"
          confirmPassword := some "secret1", name := none } .dupKey .ok =
      (.failure 400 "Email already exists" "DUPLICATE_EMAIL", []) :=
  (register_validation_order defaultConfig (fun s => s ++ "#h") [] 2 0
      { email := some "a@b.com", password := some "secret1"
        confirmPassword := some "secret1", name := none } .dupKey .ok).2.2.2.2
    (by decide) rfl (by decide) (by decide) rfl

/-- Claim C10: the refresh endpoint never consults the identity store —
its result is invariant under any change of store contents, and a
verifying refresh token whose subject matches no stored identity still
yields a new access token for that subject rather than a user-not-found
error. -/
theorem refresh_ignores_store (cfg : Config) (env : JwtEnv) (now : Int)
    (rt : Option String) :
    (∀ users users2 : List User,
        refreshRoute cfg env users now rt = refreshRoute cfg env users2 now rt) ∧
      (∀ (users : List User) (s : String) (uid : Nat), rt = some s → s ≠ "" →
        jwtVerify env s cfg.jwtRefreshSecret now = .ok uid →
        (∀ v ∈ users, v.id ≠ uid) →
        refreshRoute cfg env users now rt = .success (generateToken cfg uid now)) := by
  refine ⟨fun users users2 => rfl, ?_⟩
  rintro users s uid rfl hs hj _
  simp [refreshRoute, isFalsy, hs, hj]

/-- Witness for claim C10 theorem: `ref7` names subject 7, absent from
the store holding only `userW` (id 1), yet refresh succeeds. -/
theorem refresh_ignores_store_witness :
    refreshRoute defaultConfig envW [userW] 0 (some "ref7") =
      .success (generateToken defaultConfig 7 0) :=
  (refresh_ignores_store defaultConfig envW 0 (some "ref7")).2 [userW] "ref7" 7
    rfl (by decide) rfl (by decide)

end TosAuth
